import Mathlib

/-!
Verification of vyos-1x src/python/vyos/ifconfig/dhcp.py against its
specification.

The module manages the lifecycle of a DHCP (v4/v6) client process bound to a
single network interface.  We give a shallow embedding:

* the filesystem is an association list from paths to contents
  (os.path.isfile, open(...,'w').write, os.remove, open(...,'r').read);
* external side effects (self._cmd process invocations, self._write_sysfs
  writes, self._debug_msg) are recorded as an event trace;
* a Python exception escaping a method is modelled as an error value in the
  outcome (PyErr); os.remove failures are decided by an environment oracle
  (Env.removeOk), since whether unlinking succeeds depends on the OS;
* jinja2 template rendering of the two fixed templates is embedded as a Lean
  function on the option values, following jinja2 semantics for the literal
  template text (a block tag ending in -%\x7d swallows the whitespace that
  follows it, an if-block renders its body exactly when the value is truthy,
  i.e. a non-empty string).

Definitions mirror dhcp.py; names follow the source where Lean allows it.
-/

/-! ## Filesystem model -/

abbrev FS := List (String × String)

/-- Contents of the file at path p, or none if no such file exists
(models open(p, 'r') succeeding or raising FileNotFoundError). -/
def readF : FS → String → Option String
  | [], _ => none
  | (q, c) :: t, p => if q = p then some c else readF t p

/-- Models os.path.isfile. -/
def isfile (fs : FS) (p : String) : Bool :=
  (readF fs p).isSome

/-- Remove every entry for path p (models a successful os.remove). -/
def eraseF : FS → String → FS
  | [], _ => []
  | (q, c) :: t, p => if q = p then eraseF t p else (q, c) :: eraseF t p

/-- Models open(p, 'w').write(c): create the file or replace its contents. -/
def writeF (fs : FS) (p c : String) : FS :=
  (p, c) :: eraseF fs p

/-! ## Errors, events, environment -/

/-- A Python exception escaping one of the methods. -/
inductive PyErr : Type where
  /-- raise Exception(msg) -/
  | exn (msg : String)
  /-- OSError raised by os.remove(path) -/
  | osError (path : String)
  /-- FileNotFoundError raised by open(path, 'r') -/
  | fileNotFound (path : String)
deriving DecidableEq, Repr

/-- Externally visible side effects of a method, in program order. -/
inductive Event : Type where
  /-- self._cmd(line): hand a command line to the process-execution primitive -/
  | cmd (line : String)
  /-- self._write_sysfs(path, val) -/
  | sysfsWrite (path : String) (val : Nat)
  /-- self._debug_msg(msg) -/
  | debug (msg : String)
deriving DecidableEq, Repr

/-- Environment oracle: does os.remove succeed on a given path?
(Deletion can fail at the OS level, e.g. on a read-only filesystem.) -/
structure Env : Type where
  removeOk : String → Bool

/-- The environment in which every os.remove succeeds. -/
def envTrue : Env := ⟨fun _ => true⟩

/-- Result of a method: final filesystem, event trace, and the exception
that escaped, if any. -/
structure Outcome : Type where
  fs : FS
  events : List Event
  err : Option PyErr
deriving DecidableEq, Repr

/-! ## Per-interface state from DHCP.__init__ -/

/-- DHCP.client_base -/
def client_base : String := "/var/lib/dhcp/dhclient_"

/-- The conf/pid/lease path triple stored for one IP version. -/
structure VerCfg : Type where
  conf : String
  pid : String
  lease : String
deriving DecidableEq, Repr

/-- self._dhcp[4] path entries built in DHCP.__init__. -/
def dhcp4 (ifname : String) : VerCfg :=
  ⟨client_base ++ ifname ++ ".conf",
   client_base ++ ifname ++ ".pid",
   client_base ++ ifname ++ ".leases"⟩

/-- self._dhcp[6] path entries built in DHCP.__init__. -/
def dhcp6 (ifname : String) : VerCfg :=
  ⟨client_base ++ ifname ++ ".v6conf",
   client_base ++ ifname ++ ".v6pid",
   client_base ++ ifname ++ ".v6leases"⟩

/-- self._dhcp[6]['accept_ra']. -/
def accept_ra (ifname : String) : String :=
  "/proc/sys/net/ipv6/conf/" ++ ifname ++ "/accept_ra"

/-- IP version tag for the per-version path tables. -/
inductive IpVer : Type where
  | v4
  | v6
deriving DecidableEq, Repr

/-- Config path as a function of interface name and IP version. -/
def confPath : IpVer → String → String
  | .v4, i => (dhcp4 i).conf
  | .v6, i => (dhcp6 i).conf

/-- Pid path as a function of interface name and IP version. -/
def pidPath : IpVer → String → String
  | .v4, i => (dhcp4 i).pid
  | .v6, i => (dhcp6 i).pid

/-- Lease path as a function of interface name and IP version. -/
def leasePath : IpVer → String → String
  | .v4, i => (dhcp4 i).lease
  | .v6, i => (dhcp6 i).lease

/-- self._dhcp[4]['options']: the DHCPv4 options bag. -/
structure Opts4 : Type where
  intf : String
  hostname : String
  client_id : String
  vendor_class_id : String
deriving DecidableEq, Repr

/-- self._dhcp[6]['options']: the DHCPv6 options bag. -/
structure Opts6 : Type where
  intf : String
  dhcpv6_prm_only : Bool
  dhcpv6_temporary : Bool
deriving DecidableEq, Repr

/-! ## Template rendering

template_v4 and template_v6 are fixed jinja2 templates.  Rendering is
embedded directly: literal text is kept verbatim; a variable tag is
substituted; an if-tag whose closer is -%\x7d, as well as an endif-tag whose
closer is -%\x7d, swallows the whitespace that follows it (here always a
newline and four spaces of indentation); an if-body is rendered exactly when
the option string is non-empty (Python truthiness of str).
-/

/-- jinja2.Template(template_v4).render of the options dict. -/
def render_v4 (intf hostname client_id vendor_class_id : String) : String :=
  "\n# generated by ifconfig.py\noption rfc3442-classless-static-routes code 121 = array of unsigned integer 8;\ntimeout 60;\nretry 300;\n\ninterface \""
    ++ intf
    ++ "\" \x7b\n    send host-name \""
    ++ hostname
    ++ "\";\n    "
    ++ (if client_id = "" then "" else
        "send dhcp-client-identifier \"" ++ client_id ++ "\";\n    ")
    ++ (if vendor_class_id = "" then "" else
        "send vendor-class-identifier \"" ++ vendor_class_id ++ "\";\n    ")
    ++ "request subnet-mask, broadcast-address, routers, domain-name-servers,\n        rfc3442-classless-static-routes, domain-name, interface-mtu;\n    require subnet-mask;\n\x7d\n\n"

/-- jinja2.Template(template_v6).render of the options dict. -/
def render_v6 (intf : String) : String :=
  "\n# generated by ifconfig.py\ninterface \""
    ++ intf
    ++ "\" \x7b\n    request routers, domain-name-servers, domain-name;\n\x7d\n\n"

/-! ## Command lines

The source assembles command strings with str concatenation and then
substitutes the per-version path table with str.format; the embeddings below
are the already-substituted strings.
-/

/-- Command line issued by _set_dhcp. -/
def cmd4start (i : String) : String :=
  "start-stop-daemon --start --oknodo --quiet --pidfile "
    ++ (dhcp4 i).pid
    ++ " --exec /sbin/dhclient -- -4 -nw -cf "
    ++ (dhcp4 i).conf
    ++ " -pf " ++ (dhcp4 i).pid
    ++ " -lf " ++ (dhcp4 i).lease
    ++ " " ++ i

/-- Command line issued by _del_dhcp (dhclient release mode). -/
def cmd4release (i : String) : String :=
  "/sbin/dhclient -cf " ++ (dhcp4 i).conf
    ++ " -pf " ++ (dhcp4 i).pid
    ++ " -lf " ++ (dhcp4 i).lease
    ++ " -r " ++ i

/-- Command line issued by _set_dhcpv6; the -S / -T arguments are appended
conditionally on the option flags. -/
def cmd6start (i : String) (prm temp : Bool) : String :=
  "start-stop-daemon --start --oknodo --quiet --pidfile "
    ++ (dhcp6 i).pid
    ++ " --exec /sbin/dhclient -- -6 -nw -cf "
    ++ (dhcp6 i).conf
    ++ " -pf " ++ (dhcp6 i).pid
    ++ " -lf " ++ (dhcp6 i).lease
    ++ (if prm then " -S" else "")
    ++ (if temp then " -T" else "")
    ++ " " ++ i

/-- Command line issued by _del_dhcpv6 on its teardown path.  Mirrors the
source exactly: the supervisor is invoked with --start, not --stop. -/
def cmd6stop (i : String) : String :=
  "start-stop-daemon --start --oknodo --quiet --pidfile " ++ (dhcp6 i).pid

/-! ## The four lifecycle methods -/

/-- Python str.rstrip of a trailing newline: f.read().rstrip of the newline
character removes every trailing newline character. -/
def rstripNl (s : String) : String :=
  ⟨(s.data.reverse.dropWhile (fun c => c = '\n')).reverse⟩

/-- Path of the system hostname file read by _set_dhcp. -/
def etcHostname : String := "/etc/hostname"

/-- Outcome of _set_dhcp, including the stored v4 options after the call
(the method mutates self._dhcp[4]['options'] in place). -/
structure Res4 : Type where
  fs : FS
  events : List Event
  err : Option PyErr
  opts : Opts4
deriving DecidableEq, Repr

/-- DHCP._set_dhcp: fill in the hostname from /etc/hostname when the option
is empty, render template_v4, write it to the conf path, and launch dhclient
under start-stop-daemon. -/
def set_dhcp (i : String) (o : Opts4) (fs : FS) : Res4 :=
  if o.hostname = "" then
    match readF fs etcHostname with
    | none => ⟨fs, [], some (PyErr.fileNotFound etcHostname), o⟩
    | some h =>
      let o2 : Opts4 := { o with hostname := rstripNl h }
      ⟨writeF fs (dhcp4 i).conf (render_v4 o2.intf o2.hostname o2.client_id o2.vendor_class_id),
       [Event.cmd (cmd4start i)], none, o2⟩
  else
    ⟨writeF fs (dhcp4 i).conf (render_v4 o.intf o.hostname o.client_id o.vendor_class_id),
     [Event.cmd (cmd4start i)], none, o⟩

/-- The cleanup loop shared by _del_dhcp and _del_dhcpv6:
for name in (conf, pid, lease): if os.path.isfile(p): os.remove(p).
An os.remove failure raises, aborting the loop. -/
def removeAll (env : Env) : List String → FS → FS × Option PyErr
  | [], fs => (fs, none)
  | p :: rest, fs =>
    if isfile fs p then
      if env.removeOk p then removeAll env rest (eraseF fs p)
      else (fs, some (PyErr.osError p))
    else removeAll env rest fs

/-- DHCP._del_dhcp: no-op if the pid file is absent; otherwise run dhclient
in release mode and delete the generated files. -/
def del_dhcp (env : Env) (i : String) (fs : FS) : Outcome :=
  if isfile fs (dhcp4 i).pid then
    let r := removeAll env [(dhcp4 i).conf, (dhcp4 i).pid, (dhcp4 i).lease] fs
    ⟨r.1, [Event.cmd (cmd4release i)], r.2⟩
  else
    ⟨fs, [Event.debug "No DHCP client PID found"], none⟩

/-- DHCP._set_dhcpv6: reject mutually exclusive options, render template_v6,
write it to the conf path, disable RA acceptance, and launch dhclient. -/
def set_dhcpv6 (i : String) (o : Opts6) (fs : FS) : Outcome :=
  if o.dhcpv6_prm_only && o.dhcpv6_temporary then
    ⟨fs, [], some (PyErr.exn "DHCPv6 temporary and parameters-only options are mutually exclusive!")⟩
  else
    ⟨writeF fs (dhcp6 i).conf (render_v6 o.intf),
     [Event.sysfsWrite (accept_ra i) 0,
      Event.cmd (cmd6start i o.dhcpv6_prm_only o.dhcpv6_temporary)],
     none⟩

/-- DHCP._del_dhcpv6: no-op if the pid file is absent; otherwise invoke
start-stop-daemon against the pid file, restore RA acceptance, and delete
the generated files. -/
def del_dhcpv6 (env : Env) (i : String) (fs : FS) : Outcome :=
  if isfile fs (dhcp6 i).pid then
    let r := removeAll env [(dhcp6 i).conf, (dhcp6 i).pid, (dhcp6 i).lease] fs
    ⟨r.1, [Event.cmd (cmd6stop i), Event.sysfsWrite (accept_ra i) 1], r.2⟩
  else
    ⟨fs, [Event.debug "No DHCPv6 client PID found"], none⟩

/-! ## List and string utilities

splitCh is the standard split of a character list at a separator (so
splitCh of a newline gives the lines of a file, splitCh of a space gives
the whitespace-tokens of a command line).  glue describes how splits of two
concatenated lists combine.  isPre is the list analogue of startsWith.
-/

/-- Split a character list at every occurrence of sep. -/
def splitCh (sep : Char) : List Char → List (List Char)
  | [] => [[]]
  | c :: rest =>
    if c = sep then [] :: splitCh sep rest
    else
      match splitCh sep rest with
      | [] => [[c]]
      | t :: ts => (c :: t) :: ts

/-- Join the last chunk of the first split with the first chunk of the
second split: the split of an append of two lists. -/
def glue : List (List Char) → List (List Char) → List (List Char)
  | [], ys => ys
  | [x], [] => [x]
  | [x], y :: ys => (x ++ y) :: ys
  | x :: x2 :: xs, ys => x :: glue (x2 :: xs) ys

/-- Boolean test that the first list is a leading segment of the second. -/
def isPre : List Char → List Char → Bool
  | [], _ => true
  | _ :: _, [] => false
  | a :: as, b :: bs => a == b && isPre as bs

/-- Drop leading blanks of a line. -/
def dropSpaces : List Char → List Char
  | [] => []
  | c :: t => if c = ' ' then dropSpaces t else c :: t

/-- nth element of a character list. -/
def nthc : List Char → Nat → Option Char
  | [], _ => none
  | a :: _, 0 => some a
  | _ :: t, n + 1 => nthc t n

theorem splitCh_ne_nil (sep : Char) (l : List Char) : splitCh sep l ≠ [] := by
  induction l with
  | nil => simp [splitCh]
  | cons c t ih =>
    simp only [splitCh]
    by_cases h : c = sep
    · simp [h]
    · simp only [h, if_false]
      rcases hs : splitCh sep t with _ | ⟨a, as⟩
      · exact absurd hs ih
      · simp

theorem splitCh_cons_sep (sep : Char) (t : List Char) :
    splitCh sep (sep :: t) = [] :: splitCh sep t := by
  simp [splitCh]

theorem splitCh_cons_ne (sep c : Char) (t : List Char) (h : ¬ c = sep) :
    splitCh sep (c :: t) =
      match splitCh sep t with
      | [] => [[c]]
      | t1 :: ts => (c :: t1) :: ts := by
  simp [splitCh, h]

theorem splitCh_append (sep : Char) (x y : List Char) :
    splitCh sep (x ++ y) = glue (splitCh sep x) (splitCh sep y) := by
  induction x with
  | nil =>
    simp only [List.nil_append, splitCh]
    rcases hy : splitCh sep y with _ | ⟨b, bs⟩
    · exact absurd hy (splitCh_ne_nil sep y)
    · simp [glue]
  | cons c t ih =>
    rw [List.cons_append]
    by_cases h : c = sep
    · subst h
      rw [splitCh_cons_sep, splitCh_cons_sep, ih]
      rcases hst : splitCh c t with _ | ⟨a, as⟩
      · exact absurd hst (splitCh_ne_nil c t)
      · simp [glue]
    · rw [splitCh_cons_ne sep c _ h, splitCh_cons_ne sep c _ h, ih]
      rcases hst : splitCh sep t with _ | ⟨a, as⟩
      · exact absurd hst (splitCh_ne_nil sep t)
      · rcases as with _ | ⟨a2, as2⟩
        · rcases hsy : splitCh sep y with _ | ⟨b, bs⟩
          · exact absurd hsy (splitCh_ne_nil sep y)
          · simp [glue]
        · simp [glue]

theorem splitCh_not_mem (sep : Char) (l : List Char) (h : sep ∉ l) :
    splitCh sep l = [l] := by
  induction l with
  | nil => simp [splitCh]
  | cons c t ih =>
    have hc : ¬ c = sep := fun e => h (by simp [e])
    have ht : sep ∉ t := fun e => h (by simp [e])
    simp only [splitCh, hc, if_false, ih ht]

theorem data_append (a b : String) : (a ++ b).data = a.data ++ b.data := rfl

theorem strEq {a b : String} (h : a.data = b.data) : a = b :=
  congrArg String.mk h

theorem app_left_cancel (a : List Char) {b c : List Char}
    (h : a ++ b = a ++ c) : b = c := by
  induction a with
  | nil => simpa using h
  | cons x xs ih =>
    simp only [List.cons_append, List.cons.injEq] at h
    exact ih h.2

theorem app_right_cancel {a b s : List Char} (h : a ++ s = b ++ s) : a = b := by
  have h2 := congrArg List.reverse h
  rw [List.reverse_append, List.reverse_append] at h2
  have h3 := app_left_cancel s.reverse h2
  have h4 := congrArg List.reverse h3
  simpa using h4

theorem nthc_append_lt (a b : List Char) (k : Nat) (h : k < a.length) :
    nthc (a ++ b) k = nthc a k := by
  induction a generalizing k with
  | nil => simp at h
  | cons x xs ih =>
    cases k with
    | zero => simp [nthc]
    | succ n =>
      simp only [List.cons_append, nthc]
      exact ih n (by simpa using h)

theorem nthc_isSome_lt (l : List Char) (k : Nat)
    (h : (nthc l k).isSome = true) : k < l.length := by
  induction l generalizing k with
  | nil => simp [nthc] at h
  | cons x xs ih =>
    cases k with
    | zero => simp
    | succ n =>
      simp only [nthc] at h
      have := ih n h
      simpa using Nat.succ_lt_succ this

/-- Two strings with fixed suffixes differ whenever the suffixes disagree at
some position counted from the right end. -/
theorem suffix_ne {sx sy : String} (x y : String) (k : Nat)
    (hx : (nthc sx.data.reverse k).isSome = true)
    (hy : (nthc sy.data.reverse k).isSome = true)
    (hne : nthc sx.data.reverse k ≠ nthc sy.data.reverse k) :
    x ++ sx ≠ y ++ sy := by
  intro e
  have e2 : (x ++ sx).data.reverse = (y ++ sy).data.reverse := by rw [e]
  rw [data_append, data_append, List.reverse_append, List.reverse_append] at e2
  have ex := nthc_append_lt sx.data.reverse x.data.reverse k
    (nthc_isSome_lt _ _ hx)
  have ey := nthc_append_lt sy.data.reverse y.data.reverse k
    (nthc_isSome_lt _ _ hy)
  have : nthc sx.data.reverse k = nthc sy.data.reverse k := by
    rw [← ex, ← ey, e2]
  exact hne this

theorem affix_cancel {p s i j : String} (h : p ++ i ++ s = p ++ j ++ s) :
    i = j := by
  have h1 : (p ++ i ++ s).data = (p ++ j ++ s).data := by rw [h]
  rw [data_append, data_append, data_append, data_append] at h1
  have h2 := app_right_cancel h1
  exact strEq (app_left_cancel p.data h2)

/-! ## Filesystem lemmas -/

theorem readF_eraseF_self (fs : FS) (p : String) :
    readF (eraseF fs p) p = none := by
  induction fs with
  | nil => rfl
  | cons e t ih =>
    rcases e with ⟨q, c⟩
    simp only [eraseF]
    by_cases h : q = p
    · simpa [h] using ih
    · simpa [readF, h] using ih

theorem readF_eraseF_ne (fs : FS) {p q : String} (h : ¬ q = p) :
    readF (eraseF fs p) q = readF fs q := by
  induction fs with
  | nil => rfl
  | cons e t ih =>
    rcases e with ⟨r, c⟩
    by_cases hr : r = p
    · subst hr
      have hpq : ¬ r = q := fun e => h e.symm
      simp [eraseF, readF, hpq, ih]
    · by_cases hq : r = q
      · subst hq
        simp [eraseF, hr, readF]
      · simp [eraseF, hr, readF, hq, ih]

theorem isfile_eraseF_self (fs : FS) (p : String) :
    isfile (eraseF fs p) p = false := by
  simp [isfile, readF_eraseF_self]

theorem isfile_eraseF_ne (fs : FS) {p q : String} (h : ¬ q = p) :
    isfile (eraseF fs p) q = isfile fs q := by
  simp [isfile, readF_eraseF_ne fs h]

theorem isfile_writeF_self (fs : FS) (p c : String) :
    isfile (writeF fs p c) p = true := by
  simp [isfile, writeF, readF]

/-! ## Lemmas about the cleanup loop -/

theorem removeAll_absent (env : Env) (ps : List String) (fs : FS) (q : String)
    (h : isfile fs q = false) :
    isfile (removeAll env ps fs).1 q = false := by
  induction ps generalizing fs with
  | nil => simpa [removeAll]
  | cons p rest ih =>
    simp only [removeAll]
    by_cases hf : isfile fs p
    · by_cases hok : env.removeOk p
      · simp only [hf, hok, if_true]
        refine ih (eraseF fs p) ?_
        by_cases hq : q = p
        · rw [hq]
          exact isfile_eraseF_self fs p
        · rw [isfile_eraseF_ne fs hq]
          exact h
      · simp [hf, hok, h]
    · simp only [hf, if_false]
      exact ih fs h

theorem removeAll_allOk (env : Env) (ps : List String) (fs : FS)
    (hok : ∀ p ∈ ps, env.removeOk p = true) :
    (removeAll env ps fs).2 = none ∧
      ∀ p ∈ ps, isfile (removeAll env ps fs).1 p = false := by
  induction ps generalizing fs with
  | nil => simp [removeAll]
  | cons p rest ih =>
    have hokp : env.removeOk p = true := hok p (by simp)
    have hokr : ∀ q ∈ rest, env.removeOk q = true :=
      fun q hq => hok q (by simp [hq])
    simp only [removeAll]
    by_cases hf : isfile fs p
    · simp only [hf, hokp, if_true]
      rcases ih (eraseF fs p) hokr with ⟨h1, h2⟩
      refine ⟨h1, ?_⟩
      intro q hq
      rcases List.mem_cons.1 hq with hq | hq
      · rw [hq]
        exact removeAll_absent env rest (eraseF fs p) p (isfile_eraseF_self fs p)
      · exact h2 q hq
    · simp only [hf, if_false]
      rcases ih fs hokr with ⟨h1, h2⟩
      refine ⟨h1, ?_⟩
      intro q hq
      rcases List.mem_cons.1 hq with hq | hq
      · rw [hq]
        exact removeAll_absent env rest fs p (by simpa using hf)
      · exact h2 q hq

theorem removeAll_fails (env : Env) (ps : List String) :
    ∀ (fs : FS), ps.Pairwise (fun a b => a ≠ b) →
      ∀ p ∈ ps, isfile fs p = true → env.removeOk p = false →
        (removeAll env ps fs).2 ≠ none := by
  induction ps with
  | nil =>
    intro fs _ p hp
    simp at hp
  | cons q rest ih =>
    intro fs hdist p hp hf hok
    rcases List.pairwise_cons.1 hdist with ⟨hq, hrest⟩
    simp only [removeAll]
    rcases List.mem_cons.1 hp with hp1 | hp1
    · rw [← hp1, hf, hok]
      simp
    · have hqp : ¬ p = q := fun e => (hq p hp1) (by rw [e])
      by_cases hfq : isfile fs q
      · by_cases hokq : env.removeOk q
        · simp only [hfq, hokq, if_true]
          refine ih (eraseF fs q) hrest p hp1 ?_ hok
          rw [isfile_eraseF_ne fs hqp]
          exact hf
        · simp [hfq, hokq]
      · simp only [hfq, if_false]
        exact ih fs hrest p hp1 hf hok

/-! ## Path arithmetic -/

theorem dhcp4_conf (i : String) : (dhcp4 i).conf = client_base ++ i ++ ".conf" := rfl

theorem dhcp4_pid (i : String) : (dhcp4 i).pid = client_base ++ i ++ ".pid" := rfl

theorem dhcp4_lease (i : String) : (dhcp4 i).lease = client_base ++ i ++ ".leases" := rfl

theorem dhcp6_conf (i : String) : (dhcp6 i).conf = client_base ++ i ++ ".v6conf" := rfl

theorem dhcp6_pid (i : String) : (dhcp6 i).pid = client_base ++ i ++ ".v6pid" := rfl

theorem dhcp6_lease (i : String) : (dhcp6 i).lease = client_base ++ i ++ ".v6leases" := rfl

/-- Two generated paths with different suffix families never coincide,
whatever the interface names are: witnessed by a position (from the right)
where the two suffixes disagree. -/
theorem base_ne (i j : String) {s t : String} (k : Nat)
    (hx : (nthc s.data.reverse k).isSome = true)
    (hy : (nthc t.data.reverse k).isSome = true)
    (hne : nthc s.data.reverse k ≠ nthc t.data.reverse k) :
    client_base ++ i ++ s ≠ client_base ++ j ++ t :=
  suffix_ne (client_base ++ i) (client_base ++ j) k hx hy hne

theorem pairwise3 (a b c : String) (h1 : a ≠ b) (h2 : a ≠ c) (h3 : b ≠ c) :
    ([a, b, c] : List String).Pairwise (fun x y => x ≠ y) := by
  simp only [List.pairwise_cons, List.mem_cons, List.not_mem_nil]
  refine ⟨fun x hx => ?_, fun x hx => ?_, ?_, ?_⟩
  · rcases hx with h | h | h
    · rw [h]; exact h1
    · rw [h]; exact h2
    · simp at h
  · rcases hx with h | h
    · rw [h]; exact h3
    · simp at h
  · simp
  · simp

theorem dhcp4_pairwise (i : String) :
    ([(dhcp4 i).conf, (dhcp4 i).pid, (dhcp4 i).lease] : List String).Pairwise
      (fun x y => x ≠ y) := by
  rw [dhcp4_conf, dhcp4_pid, dhcp4_lease]
  exact pairwise3 _ _ _
    (base_ne i i 0 (by decide) (by decide) (by decide))
    (base_ne i i 0 (by decide) (by decide) (by decide))
    (base_ne i i 0 (by decide) (by decide) (by decide))

theorem dhcp6_pairwise (i : String) :
    ([(dhcp6 i).conf, (dhcp6 i).pid, (dhcp6 i).lease] : List String).Pairwise
      (fun x y => x ≠ y) := by
  rw [dhcp6_conf, dhcp6_pid, dhcp6_lease]
  exact pairwise3 _ _ _
    (base_ne i i 0 (by decide) (by decide) (by decide))
    (base_ne i i 0 (by decide) (by decide) (by decide))
    (base_ne i i 0 (by decide) (by decide) (by decide))

/-- Claim C9: the config, pid, and lease paths stored at construction are
deterministic functions of the interface name and IP version (confPath,
pidPath, leasePath), and the mapping is injective: for two distinct
(interfaceName, ipVersion) pairs, none of the generated paths coincide. -/
theorem dhcp_paths_injective (v1 v2 : IpVer) (i1 i2 : String)
    (h : ¬ (v1 = v2 ∧ i1 = i2)) :
    confPath v1 i1 ≠ confPath v2 i2 ∧ confPath v1 i1 ≠ pidPath v2 i2 ∧
    confPath v1 i1 ≠ leasePath v2 i2 ∧ pidPath v1 i1 ≠ confPath v2 i2 ∧
    pidPath v1 i1 ≠ pidPath v2 i2 ∧ pidPath v1 i1 ≠ leasePath v2 i2 ∧
    leasePath v1 i1 ≠ confPath v2 i2 ∧ leasePath v1 i1 ≠ pidPath v2 i2 ∧
    leasePath v1 i1 ≠ leasePath v2 i2 := by
  cases v1 <;> cases v2 <;>
    simp only [confPath, pidPath, leasePath,
      dhcp4_conf, dhcp4_pid, dhcp4_lease, dhcp6_conf, dhcp6_pid, dhcp6_lease]
  · have hij : i1 ≠ i2 := fun e => h ⟨rfl, e⟩
    exact ⟨fun e => hij (affix_cancel e),
      base_ne i1 i2 0 (by decide) (by decide) (by decide),
      base_ne i1 i2 0 (by decide) (by decide) (by decide),
      base_ne i1 i2 0 (by decide) (by decide) (by decide),
      fun e => hij (affix_cancel e),
      base_ne i1 i2 0 (by decide) (by decide) (by decide),
      base_ne i1 i2 0 (by decide) (by decide) (by decide),
      base_ne i1 i2 0 (by decide) (by decide) (by decide),
      fun e => hij (affix_cancel e)⟩
  · exact ⟨base_ne i1 i2 4 (by decide) (by decide) (by decide),
      base_ne i1 i2 0 (by decide) (by decide) (by decide),
      base_ne i1 i2 0 (by decide) (by decide) (by decide),
      base_ne i1 i2 0 (by decide) (by decide) (by decide),
      base_ne i1 i2 3 (by decide) (by decide) (by decide),
      base_ne i1 i2 0 (by decide) (by decide) (by decide),
      base_ne i1 i2 0 (by decide) (by decide) (by decide),
      base_ne i1 i2 0 (by decide) (by decide) (by decide),
      base_ne i1 i2 6 (by decide) (by decide) (by decide)⟩
  · exact ⟨base_ne i1 i2 4 (by decide) (by decide) (by decide),
      base_ne i1 i2 0 (by decide) (by decide) (by decide),
      base_ne i1 i2 0 (by decide) (by decide) (by decide),
      base_ne i1 i2 0 (by decide) (by decide) (by decide),
      base_ne i1 i2 3 (by decide) (by decide) (by decide),
      base_ne i1 i2 0 (by decide) (by decide) (by decide),
      base_ne i1 i2 0 (by decide) (by decide) (by decide),
      base_ne i1 i2 0 (by decide) (by decide) (by decide),
      base_ne i1 i2 6 (by decide) (by decide) (by decide)⟩
  · have hij : i1 ≠ i2 := fun e => h ⟨rfl, e⟩
    exact ⟨fun e => hij (affix_cancel e),
      base_ne i1 i2 0 (by decide) (by decide) (by decide),
      base_ne i1 i2 0 (by decide) (by decide) (by decide),
      base_ne i1 i2 0 (by decide) (by decide) (by decide),
      fun e => hij (affix_cancel e),
      base_ne i1 i2 0 (by decide) (by decide) (by decide),
      base_ne i1 i2 0 (by decide) (by decide) (by decide),
      base_ne i1 i2 0 (by decide) (by decide) (by decide),
      fun e => hij (affix_cancel e)⟩

/-- Witness for C9 at the concrete pair (v4, eth0) versus (v6, eth0). -/
theorem dhcp_paths_injective_witness :
    confPath IpVer.v4 "eth0" ≠ confPath IpVer.v6 "eth0" ∧
    confPath IpVer.v4 "eth0" ≠ pidPath IpVer.v6 "eth0" ∧
    confPath IpVer.v4 "eth0" ≠ leasePath IpVer.v6 "eth0" ∧
    pidPath IpVer.v4 "eth0" ≠ confPath IpVer.v6 "eth0" ∧
    pidPath IpVer.v4 "eth0" ≠ pidPath IpVer.v6 "eth0" ∧
    pidPath IpVer.v4 "eth0" ≠ leasePath IpVer.v6 "eth0" ∧
    leasePath IpVer.v4 "eth0" ≠ confPath IpVer.v6 "eth0" ∧
    leasePath IpVer.v4 "eth0" ≠ pidPath IpVer.v6 "eth0" ∧
    leasePath IpVer.v4 "eth0" ≠ leasePath IpVer.v6 "eth0" :=
  dhcp_paths_injective IpVer.v4 IpVer.v6 "eth0" "eth0" (by decide)

theorem del_dhcp_no_pid (env : Env) (i : String) (fs : FS)
    (h : isfile fs (dhcp4 i).pid = false) :
    del_dhcp env i fs = ⟨fs, [Event.debug "No DHCP client PID found"], none⟩ := by
  simp [del_dhcp, h]

theorem del_dhcpv6_no_pid (env : Env) (i : String) (fs : FS)
    (h : isfile fs (dhcp6 i).pid = false) :
    del_dhcpv6 env i fs = ⟨fs, [Event.debug "No DHCPv6 client PID found"], none⟩ := by
  simp [del_dhcpv6, h]

/-! ## Claims about the stop paths -/

/-- Claim C1 (code bug): on a v6 ClientConfig whose pid file exists, stop
(_del_dhcpv6) hands the supervisor an invocation in --start mode, with no
--stop token at all, while the surrounding code and docstring intend a stop
operation; with --oknodo this start-mode invocation is a no-op when the
client is already running, so the supervised process is not terminated. -/
theorem del_dhcpv6_stop_invokes_start_mode :
    (del_dhcpv6 envTrue "eth0" [((dhcp6 "eth0").pid, "4711\n")]).events =
      [Event.cmd (cmd6stop "eth0"), Event.sysfsWrite (accept_ra "eth0") 1] ∧
    cmd6stop "eth0" =
      "start-stop-daemon --start --oknodo --quiet --pidfile /var/lib/dhcp/dhclient_eth0.v6pid" ∧
    "--start".data ∈ splitCh ' ' (cmd6stop "eth0").data ∧
    "--stop".data ∉ splitCh ' ' (cmd6stop "eth0").data := by
  refine ⟨by decide, by decide, by decide, by decide⟩

/-- Claim C2: when dhcpv6_prm_only and dhcpv6_temporary are both set,
_set_dhcpv6 raises immediately: the filesystem is untouched, no external
command and no sysfs write is issued. -/
theorem set_dhcpv6_mutual_exclusion (i : String) (o : Opts6) (fs : FS)
    (h1 : o.dhcpv6_prm_only = true) (h2 : o.dhcpv6_temporary = true) :
    set_dhcpv6 i o fs =
      ⟨fs, [],
       some (PyErr.exn "DHCPv6 temporary and parameters-only options are mutually exclusive!")⟩ := by
  simp [set_dhcpv6, h1, h2]

/-- Witness for C2 at interface eth0 with both flags set. -/
theorem set_dhcpv6_mutual_exclusion_witness :
    set_dhcpv6 "eth0" ⟨"eth0", true, true⟩ [] =
      ⟨[], [],
       some (PyErr.exn "DHCPv6 temporary and parameters-only options are mutually exclusive!")⟩ :=
  set_dhcpv6_mutual_exclusion "eth0" ⟨"eth0", true, true⟩ [] rfl rfl

/-- Claim C3: when the pid file does not exist, _del_dhcp and _del_dhcpv6
return None after a debug message: the filesystem is unchanged and no
external process is invoked. -/
theorem del_dhcp_no_pidfile_noop (env : Env) (i : String) (fs : FS) :
    (isfile fs (dhcp4 i).pid = false →
      del_dhcp env i fs = ⟨fs, [Event.debug "No DHCP client PID found"], none⟩) ∧
    (isfile fs (dhcp6 i).pid = false →
      del_dhcpv6 env i fs = ⟨fs, [Event.debug "No DHCPv6 client PID found"], none⟩) := by
  constructor
  · intro h
    simp [del_dhcp, h]
  · intro h
    simp [del_dhcpv6, h]

/-- Witness for C3 on the empty filesystem. -/
theorem del_dhcp_no_pidfile_noop_witness :
    del_dhcp envTrue "eth0" [] = ⟨[], [Event.debug "No DHCP client PID found"], none⟩ ∧
    del_dhcpv6 envTrue "eth0" [] = ⟨[], [Event.debug "No DHCPv6 client PID found"], none⟩ :=
  ⟨(del_dhcp_no_pidfile_noop envTrue "eth0" []).1 (by decide),
   (del_dhcp_no_pidfile_noop envTrue "eth0" []).2 (by decide)⟩

/-- Claim C10: _del_dhcpv6 writes 1 to the accept_ra control path only on
the teardown path that found a pid file; with no pid file the whole event
trace is a single debug message, so no sysfs write happens. -/
theorem del_dhcpv6_ra_only_on_teardown (env : Env) (i : String) (fs : FS) :
    (isfile fs (dhcp6 i).pid = false →
      (del_dhcpv6 env i fs).events = [Event.debug "No DHCPv6 client PID found"]) ∧
    (isfile fs (dhcp6 i).pid = true →
      (del_dhcpv6 env i fs).events =
        [Event.cmd (cmd6stop i), Event.sysfsWrite (accept_ra i) 1]) := by
  constructor
  · intro h
    simp [del_dhcpv6, h]
  · intro h
    simp [del_dhcpv6, h]

/-- Witness for C10: never-started eth0 gives only the debug event; with a
pid file present the RA write appears. -/
theorem del_dhcpv6_ra_only_on_teardown_witness :
    (del_dhcpv6 envTrue "eth0" []).events = [Event.debug "No DHCPv6 client PID found"] ∧
    (del_dhcpv6 envTrue "eth0" [((dhcp6 "eth0").pid, "4711\n")]).events =
      [Event.cmd (cmd6stop "eth0"), Event.sysfsWrite (accept_ra "eth0") 1] :=
  ⟨(del_dhcpv6_ra_only_on_teardown envTrue "eth0" []).1 (by decide),
   (del_dhcpv6_ra_only_on_teardown envTrue "eth0" [((dhcp6 "eth0").pid, "4711\n")]).2 (by decide)⟩

/-! ## Stop after start (C4) -/

theorem del_dhcp_with_pid (env : Env) (i : String) (fs : FS)
    (hok : ∀ p, env.removeOk p = true)
    (hpid : isfile fs (dhcp4 i).pid = true) :
    (del_dhcp env i fs).err = none ∧
    isfile (del_dhcp env i fs).fs (dhcp4 i).conf = false ∧
    isfile (del_dhcp env i fs).fs (dhcp4 i).pid = false ∧
    isfile (del_dhcp env i fs).fs (dhcp4 i).lease = false ∧
    (del_dhcp env i (del_dhcp env i fs).fs).err = none := by
  have hok3 : ∀ p ∈ [(dhcp4 i).conf, (dhcp4 i).pid, (dhcp4 i).lease],
      env.removeOk p = true := fun p _ => hok p
  rcases removeAll_allOk env [(dhcp4 i).conf, (dhcp4 i).pid, (dhcp4 i).lease] fs hok3
    with ⟨herr, habs⟩
  have hd : del_dhcp env i fs =
      ⟨(removeAll env [(dhcp4 i).conf, (dhcp4 i).pid, (dhcp4 i).lease] fs).1,
       [Event.cmd (cmd4release i)],
       (removeAll env [(dhcp4 i).conf, (dhcp4 i).pid, (dhcp4 i).lease] fs).2⟩ := by
    simp [del_dhcp, hpid]
  have hconf := habs (dhcp4 i).conf (by simp)
  have hpid2 := habs (dhcp4 i).pid (by simp)
  have hlease := habs (dhcp4 i).lease (by simp)
  refine ⟨by rw [hd]; exact herr, by rw [hd]; exact hconf, by rw [hd]; exact hpid2,
    by rw [hd]; exact hlease, ?_⟩
  have hnop : isfile (del_dhcp env i fs).fs (dhcp4 i).pid = false := by
    rw [hd]; exact hpid2
  rw [del_dhcp_no_pid env i _ hnop]

theorem del_dhcpv6_with_pid (env : Env) (i : String) (fs : FS)
    (hok : ∀ p, env.removeOk p = true)
    (hpid : isfile fs (dhcp6 i).pid = true) :
    (del_dhcpv6 env i fs).err = none ∧
    isfile (del_dhcpv6 env i fs).fs (dhcp6 i).conf = false ∧
    isfile (del_dhcpv6 env i fs).fs (dhcp6 i).pid = false ∧
    isfile (del_dhcpv6 env i fs).fs (dhcp6 i).lease = false ∧
    (del_dhcpv6 env i (del_dhcpv6 env i fs).fs).err = none := by
  have hok3 : ∀ p ∈ [(dhcp6 i).conf, (dhcp6 i).pid, (dhcp6 i).lease],
      env.removeOk p = true := fun p _ => hok p
  rcases removeAll_allOk env [(dhcp6 i).conf, (dhcp6 i).pid, (dhcp6 i).lease] fs hok3
    with ⟨herr, habs⟩
  have hd : del_dhcpv6 env i fs =
      ⟨(removeAll env [(dhcp6 i).conf, (dhcp6 i).pid, (dhcp6 i).lease] fs).1,
       [Event.cmd (cmd6stop i), Event.sysfsWrite (accept_ra i) 1],
       (removeAll env [(dhcp6 i).conf, (dhcp6 i).pid, (dhcp6 i).lease] fs).2⟩ := by
    simp [del_dhcpv6, hpid]
  have hconf := habs (dhcp6 i).conf (by simp)
  have hpid2 := habs (dhcp6 i).pid (by simp)
  have hlease := habs (dhcp6 i).lease (by simp)
  refine ⟨by rw [hd]; exact herr, by rw [hd]; exact hconf, by rw [hd]; exact hpid2,
    by rw [hd]; exact hlease, ?_⟩
  have hnop : isfile (del_dhcpv6 env i fs).fs (dhcp6 i).pid = false := by
    rw [hd]; exact hpid2
  rw [del_dhcpv6_no_pid env i _ hnop]

/-- Claim C4: in an environment where deletion succeeds, stopping after a
successful start (the external client having written the pid file, modelled
as the writeF of pidC to the pid path) removes the config, pid, and lease
files, and an immediate second stop still returns successfully. -/
theorem stop_after_start_removes_files (env : Env) (i : String)
    (hok : ∀ p, env.removeOk p = true) :
    (∀ (o : Opts4) (fs : FS) (pidC : String),
      (set_dhcp i o fs).err = none →
      (del_dhcp env i (writeF (set_dhcp i o fs).fs (dhcp4 i).pid pidC)).err = none ∧
      isfile (del_dhcp env i (writeF (set_dhcp i o fs).fs (dhcp4 i).pid pidC)).fs
        (dhcp4 i).conf = false ∧
      isfile (del_dhcp env i (writeF (set_dhcp i o fs).fs (dhcp4 i).pid pidC)).fs
        (dhcp4 i).pid = false ∧
      isfile (del_dhcp env i (writeF (set_dhcp i o fs).fs (dhcp4 i).pid pidC)).fs
        (dhcp4 i).lease = false ∧
      (del_dhcp env i
        (del_dhcp env i (writeF (set_dhcp i o fs).fs (dhcp4 i).pid pidC)).fs).err = none) ∧
    (∀ (o : Opts6) (fs : FS) (pidC : String),
      (set_dhcpv6 i o fs).err = none →
      (del_dhcpv6 env i (writeF (set_dhcpv6 i o fs).fs (dhcp6 i).pid pidC)).err = none ∧
      isfile (del_dhcpv6 env i (writeF (set_dhcpv6 i o fs).fs (dhcp6 i).pid pidC)).fs
        (dhcp6 i).conf = false ∧
      isfile (del_dhcpv6 env i (writeF (set_dhcpv6 i o fs).fs (dhcp6 i).pid pidC)).fs
        (dhcp6 i).pid = false ∧
      isfile (del_dhcpv6 env i (writeF (set_dhcpv6 i o fs).fs (dhcp6 i).pid pidC)).fs
        (dhcp6 i).lease = false ∧
      (del_dhcpv6 env i
        (del_dhcpv6 env i (writeF (set_dhcpv6 i o fs).fs (dhcp6 i).pid pidC)).fs).err =
        none) := by
  constructor
  · intro o fs pidC _
    exact del_dhcp_with_pid env i _ hok
      (isfile_writeF_self (set_dhcp i o fs).fs (dhcp4 i).pid pidC)
  · intro o fs pidC _
    exact del_dhcpv6_with_pid env i _ hok
      (isfile_writeF_self (set_dhcpv6 i o fs).fs (dhcp6 i).pid pidC)

/-- Witness for C4 at interface eth0 on the empty filesystem. -/
theorem stop_after_start_removes_files_witness :
    ((del_dhcp envTrue "eth0"
        (writeF (set_dhcp "eth0" ⟨"eth0", "vyos", "", ""⟩ []).fs (dhcp4 "eth0").pid "7\n")).err =
      none ∧
     isfile (del_dhcp envTrue "eth0"
        (writeF (set_dhcp "eth0" ⟨"eth0", "vyos", "", ""⟩ []).fs (dhcp4 "eth0").pid "7\n")).fs
       (dhcp4 "eth0").conf = false ∧
     isfile (del_dhcp envTrue "eth0"
        (writeF (set_dhcp "eth0" ⟨"eth0", "vyos", "", ""⟩ []).fs (dhcp4 "eth0").pid "7\n")).fs
       (dhcp4 "eth0").pid = false ∧
     isfile (del_dhcp envTrue "eth0"
        (writeF (set_dhcp "eth0" ⟨"eth0", "vyos", "", ""⟩ []).fs (dhcp4 "eth0").pid "7\n")).fs
       (dhcp4 "eth0").lease = false ∧
     (del_dhcp envTrue "eth0"
        (del_dhcp envTrue "eth0"
          (writeF (set_dhcp "eth0" ⟨"eth0", "vyos", "", ""⟩ []).fs
            (dhcp4 "eth0").pid "7\n")).fs).err = none) ∧
    ((del_dhcpv6 envTrue "eth0"
        (writeF (set_dhcpv6 "eth0" ⟨"eth0", false, false⟩ []).fs (dhcp6 "eth0").pid "7\n")).err =
      none ∧
     isfile (del_dhcpv6 envTrue "eth0"
        (writeF (set_dhcpv6 "eth0" ⟨"eth0", false, false⟩ []).fs (dhcp6 "eth0").pid "7\n")).fs
       (dhcp6 "eth0").conf = false ∧
     isfile (del_dhcpv6 envTrue "eth0"
        (writeF (set_dhcpv6 "eth0" ⟨"eth0", false, false⟩ []).fs (dhcp6 "eth0").pid "7\n")).fs
       (dhcp6 "eth0").pid = false ∧
     isfile (del_dhcpv6 envTrue "eth0"
        (writeF (set_dhcpv6 "eth0" ⟨"eth0", false, false⟩ []).fs (dhcp6 "eth0").pid "7\n")).fs
       (dhcp6 "eth0").lease = false ∧
     (del_dhcpv6 envTrue "eth0"
        (del_dhcpv6 envTrue "eth0"
          (writeF (set_dhcpv6 "eth0" ⟨"eth0", false, false⟩ []).fs
            (dhcp6 "eth0").pid "7\n")).fs).err = none) :=
  ⟨(stop_after_start_removes_files envTrue "eth0" (fun _ => rfl)).1
      ⟨"eth0", "vyos", "", ""⟩ [] "7\n" rfl,
   (stop_after_start_removes_files envTrue "eth0" (fun _ => rfl)).2
      ⟨"eth0", false, false⟩ [] "7\n" rfl⟩

/-! ## Deletion failure during stop (C5) -/

/-- An environment in which removing the v4 conf file of eth0 fails and
every other removal succeeds. -/
def envConfFails : Env :=
  ⟨fun p => if p = (dhcp4 "eth0").conf then false else true⟩

/-- Counterexample to C5 as stated: with the pid and conf files present and
deletion of the conf file failing, _del_dhcp does not return successfully;
the OSError escapes. -/
theorem del_dhcp_remove_failure_cex :
    (del_dhcp envConfFails "eth0"
        [((dhcp4 "eth0").pid, "1"), ((dhcp4 "eth0").conf, "x")]).err =
      some (PyErr.osError (dhcp4 "eth0").conf) ∧
    ¬ ((del_dhcp envConfFails "eth0"
        [((dhcp4 "eth0").pid, "1"), ((dhcp4 "eth0").conf, "x")]).err = none) := by
  refine ⟨by decide, by decide⟩

/-- Claim C5 as amended: if deleting the config, pid, or lease file fails
during stop (on either IP version), the error propagates out of stop —
deletion failures are not caught, so stop does not return successfully. -/
theorem del_dhcp_remove_failure_propagates (env : Env) (i : String) (fs : FS) :
    (isfile fs (dhcp4 i).pid = true →
      ∀ p ∈ [(dhcp4 i).conf, (dhcp4 i).pid, (dhcp4 i).lease],
        isfile fs p = true → env.removeOk p = false →
          (del_dhcp env i fs).err ≠ none) ∧
    (isfile fs (dhcp6 i).pid = true →
      ∀ p ∈ [(dhcp6 i).conf, (dhcp6 i).pid, (dhcp6 i).lease],
        isfile fs p = true → env.removeOk p = false →
          (del_dhcpv6 env i fs).err ≠ none) := by
  constructor
  · intro hpid p hp hf hok
    have hd : (del_dhcp env i fs).err =
        (removeAll env [(dhcp4 i).conf, (dhcp4 i).pid, (dhcp4 i).lease] fs).2 := by
      simp [del_dhcp, hpid]
    rw [hd]
    exact removeAll_fails env _ fs (dhcp4_pairwise i) p hp hf hok
  · intro hpid p hp hf hok
    have hd : (del_dhcpv6 env i fs).err =
        (removeAll env [(dhcp6 i).conf, (dhcp6 i).pid, (dhcp6 i).lease] fs).2 := by
      simp [del_dhcpv6, hpid]
    rw [hd]
    exact removeAll_fails env _ fs (dhcp6_pairwise i) p hp hf hok

/-- Witness for the amended C5 at the counterexample input. -/
theorem del_dhcp_remove_failure_propagates_witness :
    (del_dhcp envConfFails "eth0"
        [((dhcp4 "eth0").pid, "1"), ((dhcp4 "eth0").conf, "x")]).err ≠ none :=
  (del_dhcp_remove_failure_propagates envConfFails "eth0"
      [((dhcp4 "eth0").pid, "1"), ((dhcp4 "eth0").conf, "x")]).1
    (by decide) (dhcp4 "eth0").conf (by decide) (by decide) (by decide)

/-! ## Hostname handling in _set_dhcp (C6) -/

/-- Claim C6: with an empty hostname option, _set_dhcp reads /etc/hostname,
strips the trailing newline, stores the result in the options, and renders
template_v4 with it (so the stripped hostname ends up in the send host-name
line of the conf file). -/
theorem set_dhcp_hostname_from_etc (i : String) (o : Opts4) (fs : FS)
    (h : String) (hh : o.hostname = "") (hr : readF fs etcHostname = some h) :
    set_dhcp i o fs =
      ⟨writeF fs (dhcp4 i).conf
         (render_v4 o.intf (rstripNl h) o.client_id o.vendor_class_id),
       [Event.cmd (cmd4start i)], none,
       { o with hostname := rstripNl h }⟩ := by
  simp [set_dhcp, hh, hr]

set_option maxRecDepth 4000 in
/-- Witness for C6: /etc/hostname contains router1 plus a newline; the conf
file is rendered with the effective hostname router1. -/
theorem set_dhcp_hostname_from_etc_witness :
    set_dhcp "eth0" ⟨"eth0", "", "", ""⟩ [(etcHostname, "router1\n")] =
      ⟨writeF [(etcHostname, "router1\n")] (dhcp4 "eth0").conf
         (render_v4 "eth0" "router1" "" ""),
       [Event.cmd (cmd4start "eth0")], none, ⟨"eth0", "router1", "", ""⟩⟩ := by
  rw [set_dhcp_hostname_from_etc "eth0" ⟨"eth0", "", "", ""⟩
    [(etcHostname, "router1\n")] "router1\n" rfl rfl]
  decide

/-! ## Tokenization of the v6 start command (C8) -/

theorem data_empty : ("" : String).data = [] := rfl

theorem sp_lit1 : splitCh ' ' "start-stop-daemon --start --oknodo --quiet --pidfile ".data =
    ["start-stop-daemon".data, "--start".data, "--oknodo".data, "--quiet".data,
     "--pidfile".data, []] := by decide

theorem sp_cb : splitCh ' ' "/var/lib/dhcp/dhclient_".data =
    ["/var/lib/dhcp/dhclient_".data] := by decide

theorem sp_v6pid : splitCh ' ' ".v6pid".data = [".v6pid".data] := by decide

theorem sp_v6conf : splitCh ' ' ".v6conf".data = [".v6conf".data] := by decide

theorem sp_v6leases : splitCh ' ' ".v6leases".data = [".v6leases".data] := by decide

theorem sp_lit2 : splitCh ' ' " --exec /sbin/dhclient -- -6 -nw -cf ".data =
    [[], "--exec".data, "/sbin/dhclient".data, "--".data, "-6".data, "-nw".data,
     "-cf".data, []] := by decide

theorem sp_pf : splitCh ' ' " -pf ".data = [[], "-pf".data, []] := by decide

theorem sp_lf : splitCh ' ' " -lf ".data = [[], "-lf".data, []] := by decide

theorem sp_S : splitCh ' ' " -S".data = [[], "-S".data] := by decide

theorem sp_T : splitCh ' ' " -T".data = [[], "-T".data] := by decide

theorem sp_sp : splitCh ' ' " ".data = [[], []] := by decide

/-- Whitespace-tokens of the _set_dhcpv6 command when only dhcpv6_prm_only
is set: the -S flag is a token and no -T token occurs. -/
theorem tokens_prm (i : String) (h : ' ' ∉ i.data) :
    splitCh ' ' (cmd6start i true false).data =
      ["start-stop-daemon".data, "--start".data, "--oknodo".data, "--quiet".data,
       "--pidfile".data, "/var/lib/dhcp/dhclient_".data ++ i.data ++ ".v6pid".data,
       "--exec".data, "/sbin/dhclient".data, "--".data, "-6".data, "-nw".data,
       "-cf".data, "/var/lib/dhcp/dhclient_".data ++ i.data ++ ".v6conf".data,
       "-pf".data, "/var/lib/dhcp/dhclient_".data ++ i.data ++ ".v6pid".data,
       "-lf".data, "/var/lib/dhcp/dhclient_".data ++ i.data ++ ".v6leases".data,
       "-S".data, i.data] := by
  have hi : splitCh ' ' i.data = [i.data] := splitCh_not_mem ' ' i.data h
  simp only [cmd6start, dhcp6_pid, dhcp6_conf, dhcp6_lease, client_base,
    if_true, if_false, data_empty, data_append, List.append_assoc, List.append_nil,
    List.nil_append]
  simp only [splitCh_append, hi, sp_lit1, sp_cb, sp_v6pid, sp_v6conf, sp_v6leases,
    sp_lit2, sp_pf, sp_lf, sp_S, sp_T, sp_sp]
  simp [glue, List.append_assoc]

/-- Whitespace-tokens of the _set_dhcpv6 command when only dhcpv6_temporary
is set: the -T flag is a token and no -S token occurs. -/
theorem tokens_temp (i : String) (h : ' ' ∉ i.data) :
    splitCh ' ' (cmd6start i false true).data =
      ["start-stop-daemon".data, "--start".data, "--oknodo".data, "--quiet".data,
       "--pidfile".data, "/var/lib/dhcp/dhclient_".data ++ i.data ++ ".v6pid".data,
       "--exec".data, "/sbin/dhclient".data, "--".data, "-6".data, "-nw".data,
       "-cf".data, "/var/lib/dhcp/dhclient_".data ++ i.data ++ ".v6conf".data,
       "-pf".data, "/var/lib/dhcp/dhclient_".data ++ i.data ++ ".v6pid".data,
       "-lf".data, "/var/lib/dhcp/dhclient_".data ++ i.data ++ ".v6leases".data,
       "-T".data, i.data] := by
  have hi : splitCh ' ' i.data = [i.data] := splitCh_not_mem ' ' i.data h
  simp only [cmd6start, dhcp6_pid, dhcp6_conf, dhcp6_lease, client_base,
    if_true, if_false, data_empty, data_append, List.append_assoc, List.append_nil,
    List.nil_append]
  simp only [splitCh_append, hi, sp_lit1, sp_cb, sp_v6pid, sp_v6conf, sp_v6leases,
    sp_lit2, sp_pf, sp_lf, sp_S, sp_T, sp_sp]
  simp [glue, List.append_assoc]

/-- A two-character token is never one of the generated path tokens. -/
theorem ne_path_tok (i sfx : String) {a : List Char} (ha : a.length = 2) :
    a ≠ "/var/lib/dhcp/dhclient_".data ++ i.data ++ sfx.data := by
  intro e
  have hl := congrArg List.length e
  rw [ha, List.length_append, List.length_append] at hl
  have hcb : ("/var/lib/dhcp/dhclient_".data).length = 23 := by decide
  rw [hcb] at hl
  omega

/-- Claim C8: for a v6 options bag with dhcpv6_prm_only and not
dhcpv6_temporary, the command line _set_dhcpv6 hands to the process
execution primitive carries the -S flag and no -T flag (tokens of the
command line split at blanks), and symmetrically with the flags swapped.
The interface name is assumed to contain no blank (so that it cannot
itself smuggle a flag token in). -/
theorem set_dhcpv6_flag_args (i : String) (o : Opts6) (fs : FS)
    (hsp : ' ' ∉ i.data) :
    (o.dhcpv6_prm_only = true → o.dhcpv6_temporary = false → i ≠ "-T" →
      Event.cmd (cmd6start i true false) ∈ (set_dhcpv6 i o fs).events ∧
      "-S".data ∈ splitCh ' ' (cmd6start i true false).data ∧
      "-T".data ∉ splitCh ' ' (cmd6start i true false).data) ∧
    (o.dhcpv6_prm_only = false → o.dhcpv6_temporary = true → i ≠ "-S" →
      Event.cmd (cmd6start i false true) ∈ (set_dhcpv6 i o fs).events ∧
      "-T".data ∈ splitCh ' ' (cmd6start i false true).data ∧
      "-S".data ∉ splitCh ' ' (cmd6start i false true).data) := by
  constructor
  · intro h1 h2 hT
    have hiT : "-T".data ≠ i.data := fun e => hT (strEq e.symm)
    refine ⟨?_, ?_, ?_⟩
    · simp [set_dhcpv6, h1, h2]
    · rw [tokens_prm i hsp]
      simp
    · rw [tokens_prm i hsp]
      intro hm
      simp only [List.mem_cons, List.not_mem_nil, or_false] at hm
      rcases hm with h|h|h|h|h|h|h|h|h|h|h|h|h|h|h|h|h|h|h
      all_goals first
        | exact absurd h (by decide)
        | exact ne_path_tok i ".v6pid" (by decide) h
        | exact ne_path_tok i ".v6conf" (by decide) h
        | exact ne_path_tok i ".v6leases" (by decide) h
        | exact hiT h
  · intro h1 h2 hS
    have hiS : "-S".data ≠ i.data := fun e => hS (strEq e.symm)
    refine ⟨?_, ?_, ?_⟩
    · simp [set_dhcpv6, h1, h2]
    · rw [tokens_temp i hsp]
      simp
    · rw [tokens_temp i hsp]
      intro hm
      simp only [List.mem_cons, List.not_mem_nil, or_false] at hm
      rcases hm with h|h|h|h|h|h|h|h|h|h|h|h|h|h|h|h|h|h|h
      all_goals first
        | exact absurd h (by decide)
        | exact ne_path_tok i ".v6pid" (by decide) h
        | exact ne_path_tok i ".v6conf" (by decide) h
        | exact ne_path_tok i ".v6leases" (by decide) h
        | exact hiS h

/-- Witness for C8 at interface eth1, both flag combinations. -/
theorem set_dhcpv6_flag_args_witness :
    (Event.cmd (cmd6start "eth1" true false) ∈
        (set_dhcpv6 "eth1" ⟨"eth1", true, false⟩ []).events ∧
      "-S".data ∈ splitCh ' ' (cmd6start "eth1" true false).data ∧
      "-T".data ∉ splitCh ' ' (cmd6start "eth1" true false).data) ∧
    (Event.cmd (cmd6start "eth1" false true) ∈
        (set_dhcpv6 "eth1" ⟨"eth1", false, true⟩ []).events ∧
      "-T".data ∈ splitCh ' ' (cmd6start "eth1" false true).data ∧
      "-S".data ∉ splitCh ' ' (cmd6start "eth1" false true).data) :=
  ⟨(set_dhcpv6_flag_args "eth1" ⟨"eth1", true, false⟩ [] (by decide)).1 rfl rfl (by decide),
   (set_dhcpv6_flag_args "eth1" ⟨"eth1", false, true⟩ [] (by decide)).2 rfl rfl (by decide)⟩

/-! ## Lines of the rendered v4 template (C7)

The conf file text is split at newlines; a line is a send-option line for a
given option name when it starts, after its indentation, with that option
name.  The four lemmas below compute the exact line lists of render_v4 for
each combination of absent and present optional values.
-/

theorem nl_lit1 : splitCh '\n' "\n# generated by ifconfig.py\noption rfc3442-classless-static-routes code 121 = array of unsigned integer 8;\ntimeout 60;\nretry 300;\n\ninterface \"".data =
    [[], "# generated by ifconfig.py".data,
     "option rfc3442-classless-static-routes code 121 = array of unsigned integer 8;".data,
     "timeout 60;".data, "retry 300;".data, [], "interface \"".data] := by decide

theorem nl_lit2 : splitCh '\n' "\" \x7b\n    send host-name \"".data =
    ["\" \x7b".data, "    send host-name \"".data] := by decide

theorem nl_lit3 : splitCh '\n' "\";\n    ".data = ["\";".data, "    ".data] := by decide

theorem nl_litc : splitCh '\n' "send dhcp-client-identifier \"".data =
    ["send dhcp-client-identifier \"".data] := by decide

theorem nl_litv : splitCh '\n' "send vendor-class-identifier \"".data =
    ["send vendor-class-identifier \"".data] := by decide

theorem nl_lit4 : splitCh '\n' "request subnet-mask, broadcast-address, routers, domain-name-servers,\n        rfc3442-classless-static-routes, domain-name, interface-mtu;\n    require subnet-mask;\n\x7d\n\n".data =
    ["request subnet-mask, broadcast-address, routers, domain-name-servers,".data,
     "        rfc3442-classless-static-routes, domain-name, interface-mtu;".data,
     "    require subnet-mask;".data, "\x7d".data, [], []] := by decide

theorem lines_ee (i h : String) (hi : '\n' ∉ i.data) (hh : '\n' ∉ h.data) :
    splitCh '\n' (render_v4 i h "" "").data =
      [[], "# generated by ifconfig.py".data,
       "option rfc3442-classless-static-routes code 121 = array of unsigned integer 8;".data,
       "timeout 60;".data, "retry 300;".data, [],
       "interface \"".data ++ i.data ++ "\" \x7b".data,
       "    send host-name \"".data ++ h.data ++ "\";".data,
       "    ".data ++ "request subnet-mask, broadcast-address, routers, domain-name-servers,".data,
       "        rfc3442-classless-static-routes, domain-name, interface-mtu;".data,
       "    require subnet-mask;".data, "\x7d".data, [], []] := by
  have hi2 : splitCh '\n' i.data = [i.data] := splitCh_not_mem _ _ hi
  have hh2 : splitCh '\n' h.data = [h.data] := splitCh_not_mem _ _ hh
  simp only [render_v4]
  simp only [if_true]
  simp only [data_append, data_empty, List.append_assoc, List.append_nil, List.nil_append]
  simp only [splitCh_append, hi2, hh2, nl_lit1, nl_lit2, nl_lit3, nl_lit4]
  simp [splitCh, glue, List.append_assoc]


theorem lines_ce (i h c : String) (hi : '\n' ∉ i.data) (hh : '\n' ∉ h.data)
    (hc : ¬ c = "") (hcn : '\n' ∉ c.data) :
    splitCh '\n' (render_v4 i h c "").data =
      [[], "# generated by ifconfig.py".data,
       "option rfc3442-classless-static-routes code 121 = array of unsigned integer 8;".data,
       "timeout 60;".data, "retry 300;".data, [],
       "interface \"".data ++ i.data ++ "\" \x7b".data,
       "    send host-name \"".data ++ h.data ++ "\";".data,
       "    ".data ++ "send dhcp-client-identifier \"".data ++ c.data ++ "\";".data,
       "    ".data ++ "request subnet-mask, broadcast-address, routers, domain-name-servers,".data,
       "        rfc3442-classless-static-routes, domain-name, interface-mtu;".data,
       "    require subnet-mask;".data, "\x7d".data, [], []] := by
  have hi2 : splitCh '\n' i.data = [i.data] := splitCh_not_mem _ _ hi
  have hh2 : splitCh '\n' h.data = [h.data] := splitCh_not_mem _ _ hh
  have hc2 : splitCh '\n' c.data = [c.data] := splitCh_not_mem _ _ hcn
  simp only [render_v4]
  rw [if_neg hc]
  simp only [if_true]
  simp only [data_append, data_empty, List.append_assoc, List.append_nil, List.nil_append]
  simp only [splitCh_append, hi2, hh2, hc2]
  simp [splitCh, glue, List.append_assoc]

theorem lines_ev (i h v : String) (hi : '\n' ∉ i.data) (hh : '\n' ∉ h.data)
    (hv : ¬ v = "") (hvn : '\n' ∉ v.data) :
    splitCh '\n' (render_v4 i h "" v).data =
      [[], "# generated by ifconfig.py".data,
       "option rfc3442-classless-static-routes code 121 = array of unsigned integer 8;".data,
       "timeout 60;".data, "retry 300;".data, [],
       "interface \"".data ++ i.data ++ "\" \x7b".data,
       "    send host-name \"".data ++ h.data ++ "\";".data,
       "    ".data ++ "send vendor-class-identifier \"".data ++ v.data ++ "\";".data,
       "    ".data ++ "request subnet-mask, broadcast-address, routers, domain-name-servers,".data,
       "        rfc3442-classless-static-routes, domain-name, interface-mtu;".data,
       "    require subnet-mask;".data, "\x7d".data, [], []] := by
  have hi2 : splitCh '\n' i.data = [i.data] := splitCh_not_mem _ _ hi
  have hh2 : splitCh '\n' h.data = [h.data] := splitCh_not_mem _ _ hh
  have hv2 : splitCh '\n' v.data = [v.data] := splitCh_not_mem _ _ hvn
  simp only [render_v4]
  rw [if_neg hv]
  simp only [if_true]
  simp only [data_append, data_empty, List.append_assoc, List.append_nil, List.nil_append]
  simp only [splitCh_append, hi2, hh2, hv2]
  simp [splitCh, glue, List.append_assoc]

theorem lines_cv (i h c v : String) (hi : '\n' ∉ i.data) (hh : '\n' ∉ h.data)
    (hc : ¬ c = "") (hcn : '\n' ∉ c.data) (hv : ¬ v = "") (hvn : '\n' ∉ v.data) :
    splitCh '\n' (render_v4 i h c v).data =
      [[], "# generated by ifconfig.py".data,
       "option rfc3442-classless-static-routes code 121 = array of unsigned integer 8;".data,
       "timeout 60;".data, "retry 300;".data, [],
       "interface \"".data ++ i.data ++ "\" \x7b".data,
       "    send host-name \"".data ++ h.data ++ "\";".data,
       "    ".data ++ "send dhcp-client-identifier \"".data ++ c.data ++ "\";".data,
       "    ".data ++ "send vendor-class-identifier \"".data ++ v.data ++ "\";".data,
       "    ".data ++ "request subnet-mask, broadcast-address, routers, domain-name-servers,".data,
       "        rfc3442-classless-static-routes, domain-name, interface-mtu;".data,
       "    require subnet-mask;".data, "\x7d".data, [], []] := by
  have hi2 : splitCh '\n' i.data = [i.data] := splitCh_not_mem _ _ hi
  have hh2 : splitCh '\n' h.data = [h.data] := splitCh_not_mem _ _ hh
  have hc2 : splitCh '\n' c.data = [c.data] := splitCh_not_mem _ _ hcn
  have hv2 : splitCh '\n' v.data = [v.data] := splitCh_not_mem _ _ hvn
  simp only [render_v4]
  rw [if_neg hc, if_neg hv]
  simp only [data_append, data_empty, List.append_assoc, List.append_nil, List.nil_append]
  simp only [splitCh_append, hi2, hh2, hc2, hv2]
  simp [splitCh, glue, List.append_assoc]

/-- Does the line consist of the given send-option, after indentation? -/
def isOptLine (needle : String) (line : List Char) : Bool :=
  isPre needle.data (dropSpaces line)

/-- Claim C7: rendering template_v4 with an empty client_id yields no send
dhcp-client-identifier line at all, and rendering it with client_id abc
yields exactly the line with send dhcp-client-identifier "abc"; the
vendor_class_id conditional behaves the same way.  The remaining option
values are arbitrary newline-free strings. -/
theorem render_v4_conditional_lines :
    (∀ i h v : String, '\n' ∉ i.data → '\n' ∉ h.data → '\n' ∉ v.data →
      (splitCh '\n' (render_v4 i h "" v).data).filter
        (isOptLine "send dhcp-client-identifier") = []) ∧
    (∀ i h v : String, '\n' ∉ i.data → '\n' ∉ h.data → '\n' ∉ v.data →
      (splitCh '\n' (render_v4 i h "abc" v).data).filter
        (isOptLine "send dhcp-client-identifier") =
        ["    send dhcp-client-identifier \"abc\";".data]) ∧
    (∀ i h c : String, '\n' ∉ i.data → '\n' ∉ h.data → '\n' ∉ c.data →
      (splitCh '\n' (render_v4 i h c "").data).filter
        (isOptLine "send vendor-class-identifier") = []) ∧
    (∀ i h c : String, '\n' ∉ i.data → '\n' ∉ h.data → '\n' ∉ c.data →
      (splitCh '\n' (render_v4 i h c "xyz").data).filter
        (isOptLine "send vendor-class-identifier") =
        ["    send vendor-class-identifier \"xyz\";".data]) := by
  refine ⟨?_, ?_, ?_, ?_⟩
  · intro i h v hi hh hv
    by_cases he : v = ""
    · subst he
      rw [lines_ee i h hi hh]
      rfl
    · rw [lines_ev i h v hi hh he hv]
      rfl
  · intro i h v hi hh hv
    by_cases he : v = ""
    · subst he
      rw [lines_ce i h "abc" hi hh (by decide) (by decide)]
      rfl
    · rw [lines_cv i h "abc" v hi hh (by decide) (by decide) he hv]
      rfl
  · intro i h c hi hh hc
    by_cases he : c = ""
    · subst he
      rw [lines_ee i h hi hh]
      rfl
    · rw [lines_ce i h c hi hh he hc]
      rfl
  · intro i h c hi hh hc
    by_cases he : c = ""
    · subst he
      rw [lines_ev i h "xyz" hi hh (by decide) (by decide)]
      rfl
    · rw [lines_cv i h c "xyz" hi hh he hc (by decide) (by decide)]
      rfl

/-- Witness for C7 at intf eth0 and hostname gw. -/
theorem render_v4_conditional_lines_witness :
    (splitCh '\n' (render_v4 "eth0" "gw" "" "").data).filter
      (isOptLine "send dhcp-client-identifier") = [] ∧
    (splitCh '\n' (render_v4 "eth0" "gw" "abc" "").data).filter
      (isOptLine "send dhcp-client-identifier") =
      ["    send dhcp-client-identifier \"abc\";".data] ∧
    (splitCh '\n' (render_v4 "eth0" "gw" "" "").data).filter
      (isOptLine "send vendor-class-identifier") = [] ∧
    (splitCh '\n' (render_v4 "eth0" "gw" "" "xyz").data).filter
      (isOptLine "send vendor-class-identifier") =
      ["    send vendor-class-identifier \"xyz\";".data] :=
  ⟨render_v4_conditional_lines.1 "eth0" "gw" "" (by decide) (by decide) (by decide),
   render_v4_conditional_lines.2.1 "eth0" "gw" "" (by decide) (by decide) (by decide),
   render_v4_conditional_lines.2.2.1 "eth0" "gw" "" (by decide) (by decide) (by decide),
   render_v4_conditional_lines.2.2.2 "eth0" "gw" "" (by decide) (by decide) (by decide)⟩
